import Mathlib

/-!
Verification of the registration/routing core of `zabbix_module.py`
(repository `rockaut/zbx_tests`, file `src/zbx-py-test/python/zabbix_module.py`).

The Python module is embedded shallowly:
* Python values appearing in requests, item `test_param`s and discovery
  records are modelled by the inductive `PyVal` (strings, integers,
  booleans, `None`, lists).
* Python exceptions raised by the module or by handlers are modelled by
  `PyErr`; fallible operations return `Except PyErr _`.
* The process-wide mutable registry (`__items` / `__routes`) is modelled
  by the `Registry` structure with explicit state passing; a Python dict
  is an association list with dict update/lookup semantics.
* `AgentItem.__init__`, which mutates a caller-supplied `test_param`
  list in place, is modelled as `AgentItem.mk?`, which returns both the
  constructed item and the final state of the caller's argument.
-/

set_option autoImplicit false

namespace ZbxModule

/-- Scalar Python values: strings, integers, booleans and `None`. -/
inductive PyScalar where
  | str : String → PyScalar
  | int : Int → PyScalar
  | bool : Bool → PyScalar
  | none : PyScalar
deriving DecidableEq

/-- Python values occurring in this module's data: scalars and lists of
scalars.  Containers are modelled one level deep — the repository's
discovery records and `test_param` arguments hold scalars and flat
sequences.  (Dictionaries occur only as whole discovery records and are
modelled separately as association lists.) -/
inductive PyVal where
  | str : String → PyVal
  | int : Int → PyVal
  | bool : Bool → PyVal
  | none : PyVal
  | list : List PyScalar → PyVal
deriving DecidableEq

/-- Python truthiness (`if val:`): empty strings, zero, `False`, `None`
and empty containers are falsy. -/
def truthy : PyVal → Bool
  | .str s => !s.isEmpty
  | .int n => n != 0
  | .bool b => b
  | .none => false
  | .list l => !l.isEmpty

/-- Python `repr` of a scalar.  Strings are shown single-quoted;
escaping inside the string is not modelled (the repository never puts
quotes in these values). -/
def scalarRepr : PyScalar → String
  | .str s => "'" ++ s ++ "'"
  | .int n => toString n
  | .bool b => if b then "True" else "False"
  | .none => "None"

/-- Python `repr` for the values of `PyVal` (used by `str` on
containers). -/
def pyRepr : PyVal → String
  | .str s => "'" ++ s ++ "'"
  | .int n => toString n
  | .bool b => if b then "True" else "False"
  | .none => "None"
  | .list l => "[" ++ String.intercalate ", " (l.map scalarRepr) ++ "]"

/-- Python `str` for the values of `PyVal`. -/
def pyStr : PyVal → String
  | .str s => s
  | .int n => toString n
  | .bool b => if b then "True" else "False"
  | .none => "None"
  | .list l => pyRepr (.list l)

/-- Python `str` of a tuple with the given elements: elements are shown
with `repr`, a one-element tuple gets a trailing comma. -/
def pyStrTuple : List PyVal → String
  | [x] => "(" ++ pyRepr x ++ ",)"
  | l => "(" ++ String.intercalate ", " (l.map pyRepr) ++ ")"

/-! ## `macro_name` (lines 130-140)

The three `re.sub` calls are embedded over `List Char`:
`sub(r'[\s_-]+', '_', m)` and `sub(r'[_]+', '_', m)` replace every
maximal run of characters of a class by one replacement character
(`subRuns`), and `sub(r'[^a-zA-Z_]+', '', m)` deletes every character
outside а class (`List.filter`). -/

/-- The character class `[\s_-]` of the first substitution: ASCII
whitespace (Python `\s`: space, tab, newline, vertical tab, form feed,
carriage return), underscore and hyphen. -/
def wsClass (c : Char) : Bool :=
  c = ' ' || c = '\t' || c = '\n' || c = '\x0b' || c = '\x0c' || c = '\r' || c = '_' || c = '-'

/-- The character class `[a-zA-Z_]` kept by the second substitution. -/
def legalChar (c : Char) : Bool :=
  c.isAlpha || c = '_'

/-- Replace every maximal run of characters satisfying `p` by the single
character `r`; the flag records whether the previous character was part
of such a run. -/
def collapseRunsAux (p : Char → Bool) (r : Char) : Bool → List Char → List Char
  | _, [] => []
  | prev, c :: rest =>
    if p c then
      if prev then collapseRunsAux p r true rest
      else r :: collapseRunsAux p r true rest
    else c :: collapseRunsAux p r false rest

/-- Embedding of `re.sub(r'[class]+', r, s)` for a one-character replacement `r`. -/
def subRuns (p : Char → Bool) (r : Char) (l : List Char) : List Char :=
  collapseRunsAux p r false l

/-- The function `macro_name` (lines 130-140): uppercase, replace whitespace runs by
`_`, strip illegal characters, reduce duplicate underscores and wrap in
the `{#...}` envelope. -/
def macro_name (key : String) : String :=
  let m0 := key.data.map Char.toUpper
  let m1 := subRuns wsClass '_' m0
  let m2 := m1.filter legalChar
  let m3 := subRuns (fun c => c = '_') '_' m2
  "\x7b#" ++ String.mk m3 ++ "\x7d"

/-! Specification-side rendering of the `macro_name` algorithm, written
from the spec's wording of the five steps (§4.3): step (2) and step (4)
replace a *maximal run* by one underscore, phrased directly with
`dropWhile`. -/

theorem length_dropWhile_le {α : Type} (p : α → Bool) (l : List α) :
    (l.dropWhile p).length ≤ l.length := by
  induction l with
  | nil => simp
  | cons c rest ih =>
    rw [List.dropWhile_cons]
    by_cases hp : p c
    · simp only [hp, if_true]
      exact Nat.le_succ_of_le ih
    · simp [hp]

/-- Replace every maximal run of characters satisfying `p` by the single
character `r`, phrased as the spec does: on meeting a run, emit `r` once
and resume after the run. -/
def specReplaceRuns (p : Char → Bool) (r : Char) : List Char → List Char
  | [] => []
  | c :: rest =>
    if p c then r :: specReplaceRuns p r (rest.dropWhile p)
    else c :: specReplaceRuns p r rest
termination_by l => l.length
decreasing_by
  · simp only [List.length_cons]
    exact Nat.lt_succ_of_le (length_dropWhile_le p rest)
  · simp

/-- The spec's five-step algorithm (§4.3): (1) uppercase, (2) replace
maximal whitespace/underscore/hyphen runs by one underscore, (3) delete
characters that are not ASCII letters or underscore, (4) collapse
underscore runs, (5) wrap in the envelope. -/
def macroNameSpec (key : String) : String :=
  let s1 := key.data.map Char.toUpper
  let s2 := specReplaceRuns wsClass '_' s1
  let s3 := s2.filter legalChar
  let s4 := specReplaceRuns (fun c => c = '_') '_' s3
  "\x7b#" ++ String.mk s4 ++ "\x7d"

theorem collapseRunsAux_eq_specReplaceRuns (p : Char → Bool) (r : Char) (l : List Char) :
    collapseRunsAux p r false l = specReplaceRuns p r l ∧
    collapseRunsAux p r true l = specReplaceRuns p r (l.dropWhile p) := by
  induction l with
  | nil => simp [collapseRunsAux, specReplaceRuns]
  | cons c rest ih =>
    by_cases hp : p c
    · constructor
      · simp [collapseRunsAux, specReplaceRuns, hp, ih.2]
      · simp [collapseRunsAux, List.dropWhile_cons, hp, ih.2]
    · constructor
      · simp [collapseRunsAux, specReplaceRuns, hp, ih.1]
      · simp [collapseRunsAux, List.dropWhile_cons, specReplaceRuns, hp, ih.1]

theorem subRuns_eq_specReplaceRuns (p : Char → Bool) (r : Char) (l : List Char) :
    subRuns p r l = specReplaceRuns p r l :=
  (collapseRunsAux_eq_specReplaceRuns p r l).1

/-! ## Errors, requests, items -/

/-- Python exceptions relevant to the module.  The module itself raises
only `ValueError` (lines 87, 90, 123); handlers may raise anything, in
particular `KeyError` (caught by `route`, line 122). -/
inductive PyErr where
  | valueError : String → PyErr
  /-- A `KeyError`, as raised by a failed dict lookup inside a handler. -/
  | keyError : String → PyErr
  /-- Modelled from the spec: the spec's error taxonomy (§7) names a
  `NotReadyError` for routing before registry readiness; the code under
  `src/` defines no such exception and never raises one. -/
  | notReady : PyErr
  /-- Any other provider-defined exception a handler may raise. -/
  | exc : String → PyErr
deriving DecidableEq, Repr

/-- True exactly on `KeyError` values. -/
def PyErr.isKeyError : PyErr → Bool
  | .keyError _ => true
  | _ => false

/-- The class `AgentRequest` (lines 68-77). -/
structure AgentRequest where
  key : String
  params : List String

/-- A handler either returns a value or raises an exception. -/
abbrev Handler := AgentRequest → Except PyErr PyVal

/-- The shapes a `test_param` argument to `AgentItem.__init__` can take:
`None`, a Python list, a tuple, a string, or a non-iterable scalar
(number, boolean).  Lists are mutable sequences; tuples and strings are
iterable but reject item assignment; scalars are not iterable. -/
inductive TP where
  | pnone : TP
  | plist : List PyVal → TP
  | ptuple : List PyVal → TP
  | pstr : String → TP
  | pscalar : PyVal → TP

/-- Python truthiness of a `test_param` argument. -/
def truthyTP : TP → Bool
  | .pnone => false
  | .plist l => !l.isEmpty
  | .ptuple l => !l.isEmpty
  | .pstr s => !s.isEmpty
  | .pscalar v => truthy v

/-- The `test_param` normalization of `AgentItem.__init__` (lines
92-101), returning `(stored value, caller's argument after the call)`:

* falsy arguments are left untouched (line 93 guard);
* a list is mutated element-wise to strings and the stored value is the
  comma-join (lines 95-98);
* a tuple or string raises `TypeError` on the first item assignment,
  which is caught, so the stored value is `str(test_param)` (lines
  100-101) and the argument is not mutated;
* a non-iterable scalar raises `TypeError` in `enumerate`, with the same
  outcome. -/
def processTP : TP → TP × TP
  | t =>
    if truthyTP t then
      match t with
      | .plist l =>
          (TP.pstr (String.intercalate "," (l.map pyStr)),
           TP.plist (l.map fun v => PyVal.str (pyStr v)))
      | .ptuple l => (TP.pstr (pyStrTuple l), TP.ptuple l)
      | .pstr s => (TP.pstr s, TP.pstr s)
      | .pscalar v => (TP.pstr (pyStr v), TP.pscalar v)
      | .pnone => (TP.pnone, TP.pnone)
    else (t, t)

/-- The class `AgentItem` (lines 79-106): the state of a successfully constructed
item. -/
structure AgentItem where
  key : String
  flags : Int
  test_param : TP
  fn : Handler

/-- The constructor `AgentItem.__init__` (lines 85-106).  The `key` and `fn` arguments
may be absent (`none`); `if not key` also rejects the empty string.
Returns the constructed item together with the final state of the
caller's `test_param` argument (the constructor mutates a list argument
in place). -/
def AgentItem.mk? (key : Option String) (flags : Int) (fn : Option Handler) (test_param : TP) :
    Except PyErr (AgentItem × TP) :=
  match key with
  | Option.none => .error (.valueError "key not given in agent item")
  | some k =>
    if k = "" then .error (.valueError "key not given in agent item")
    else
      match fn with
      | Option.none => .error (.valueError "fn not given in agent item")
      | some f =>
        let p := processTP test_param
        .ok ({ key := k, flags := flags, test_param := p.1, fn := f }, p.2)

/-! ## Registry and router -/

/-- Assignment `d[k] = v` on a Python dict modelled as an association
list: the first binding of `k` is replaced in place, otherwise the
binding is appended. -/
def dictUpdate {α : Type} : List (String × α) → String → α → List (String × α)
  | [], k, v => [(k, v)]
  | p :: rest, k, v => if p.1 = k then (k, v) :: rest else p :: dictUpdate rest k v

/-- Lookup `d[k]` on a Python dict modelled as an association list. -/
def dictFind {α : Type} : List (String × α) → String → Option α
  | [], _ => Option.none
  | p :: rest, k => if p.1 = k then some p.2 else dictFind rest k

/-- The module-level registry state: `__items` (line 15) and `__routes`
(line 17). -/
structure Registry where
  items : List AgentItem
  routes : List (String × Handler)

/-- The state at import time: `__items = []`, `__routes = {}`. -/
def initialRegistry : Registry :=
  { items := [], routes := [] }

/-- The function `register_item` (lines 158-165): appends the item to `__items`,
sets `__routes[item.key] = item.fn`, and returns the item. -/
def register_item (reg : Registry) (item : AgentItem) : Registry × AgentItem :=
  ({ items := reg.items ++ [item],
     routes := dictUpdate reg.routes item.key item.fn }, item)

/-- Registration of a sequence of items, in order. -/
def registerAll (reg : Registry) (l : List AgentItem) : Registry :=
  l.foldl (fun r i => (register_item r i).1) reg

/-- The function `zbx_module_item_list` (lines 259-265): returns `__items`. -/
def zbx_module_item_list (reg : Registry) : List AgentItem :=
  reg.items

/-- The function `route` (lines 111-123): `return __routes[request.key](request)`
inside `try: ... except KeyError: raise ValueError(...)`.  The
`KeyError` handler catches both a failed dict lookup and a `KeyError`
raised by the handler itself. -/
def route (reg : Registry) (request : AgentRequest) : Except PyErr PyVal :=
  match dictFind reg.routes request.key with
  | Option.none =>
      .error (.valueError ("no function registered for agent item " ++ request.key))
  | some f =>
      match f request with
      | .error (.keyError _) =>
          .error (.valueError ("no function registered for agent item " ++ request.key))
      | r => r

/-! ## `discovery` (lines 142-156) -/

/-- The inner loop of `discovery`: build `lld_item` for one record by
inserting `macro_name(key) ↦ str(val)` for every truthy value, with
Python dict assignment semantics (a colliding macro name overwrites in
place). -/
def lldRecord (rec : List (String × PyVal)) : List (String × String) :=
  rec.foldl
    (fun acc kv => if truthy kv.2 then dictUpdate acc (macro_name kv.1) (pyStr kv.2) else acc)
    []

/-- The outer loop of `discovery`: `lld_data['data']`, keeping only
records whose `lld_item` is non-empty (`if lld_item:`). -/
def discoveryRecords (data : List (List (String × PyVal))) : List (List (String × String)) :=
  data.foldl
    (fun acc rec =>
      let item := lldRecord rec
      if item.isEmpty then acc else acc ++ [item])
    []

/-- JSON string escaping for the characters that need it in this
repository's data (quote and backslash; control and non-ASCII
characters never occur in the values at hand). -/
def jsonEscape (s : String) : String :=
  String.mk (s.data.foldr
    (fun c acc => if c = '"' || c = '\\' then '\\' :: c :: acc else c :: acc) [])

/-- A JSON string literal. -/
def jsonStr (s : String) : String :=
  "\"" ++ jsonEscape s ++ "\""

/-- A flat JSON object of string fields, with Python's default
`json.JSONEncoder` separators. -/
def jsonObj (pairs : List (String × String)) : String :=
  "\x7b" ++ String.intercalate ", " (pairs.map fun p => jsonStr p.1 ++ ": " ++ jsonStr p.2) ++ "\x7d"

/-- The function `discovery` (lines 142-156): the LLD JSON string
`{"data": [ ... ]}` produced by `JSONEncoder().encode`. -/
def discovery (data : List (List (String × PyVal))) : String :=
  "\x7b" ++ jsonStr "data" ++ ": [" ++
    String.intercalate ", " ((discoveryRecords data).map jsonObj) ++ "]\x7d"

/-! ## Helper lemmas about dict semantics and registration -/

theorem dictFind_dictUpdate_self {α : Type} (d : List (String × α)) (k : String) (v : α) :
    dictFind (dictUpdate d k v) k = some v := by
  induction d with
  | nil => simp [dictUpdate, dictFind]
  | cons p rest ih =>
    by_cases h : p.1 = k <;> simp [dictUpdate, dictFind, h, ih]

theorem dictFind_dictUpdate_other {α : Type} (d : List (String × α)) (k k2 : String) (v : α)
    (h : k2 ≠ k) : dictFind (dictUpdate d k v) k2 = dictFind d k2 := by
  induction d with
  | nil => simp [dictUpdate, dictFind, if_neg (Ne.symm h)]
  | cons p rest ih =>
    by_cases hp : p.1 = k
    · have hne : p.1 ≠ k2 := by rw [hp]; exact Ne.symm h
      simp [dictUpdate, dictFind, hp, if_neg (Ne.symm h), if_neg hne]
    · by_cases hp2 : p.1 = k2 <;> simp [dictUpdate, dictFind, hp, hp2, ih, h]

/-- The handler of the last item of `l` whose key is `k`, if any. -/
def lastRouteFor : List AgentItem → String → Option Handler
  | [], _ => Option.none
  | i :: t, k =>
    match lastRouteFor t k with
    | some f => some f
    | Option.none => if i.key = k then some i.fn else Option.none

theorem registerAll_items (reg : Registry) (l : List AgentItem) :
    (registerAll reg l).items = reg.items ++ l := by
  induction l generalizing reg with
  | nil => simp [registerAll]
  | cons i t ih =>
    have step : registerAll reg (i :: t) = registerAll (register_item reg i).1 t := rfl
    rw [step, ih]
    simp [register_item]

theorem registerAll_routes (reg : Registry) (l : List AgentItem) (k : String) :
    dictFind (registerAll reg l).routes k =
      match lastRouteFor l k with
      | some f => some f
      | Option.none => dictFind reg.routes k := by
  induction l generalizing reg with
  | nil => simp [registerAll, lastRouteFor]
  | cons i t ih =>
    have step : registerAll reg (i :: t) = registerAll (register_item reg i).1 t := rfl
    rw [step, ih]
    cases hlt : lastRouteFor t k with
    | some f => simp [lastRouteFor, hlt]
    | none =>
      by_cases hik : i.key = k
      · subst hik
        simp [lastRouteFor, hlt, register_item, dictFind_dictUpdate_self]
      · simp [lastRouteFor, hlt, hik, register_item,
          dictFind_dictUpdate_other reg.routes i.key k i.fn (Ne.symm hik)]

theorem discoveryRecords_foldl (data : List (List (String × PyVal))) :
    ∀ acc : List (List (String × String)),
      data.foldl
        (fun acc rec =>
          let item := lldRecord rec
          if item.isEmpty then acc else acc ++ [item]) acc
        = acc ++ (data.map lldRecord).filter (fun l => !l.isEmpty) := by
  induction data with
  | nil => intro acc; simp
  | cons rec t ih =>
    intro acc
    simp only [List.foldl_cons, List.map_cons, List.filter_cons]
    by_cases h : (lldRecord rec).isEmpty
    · rw [if_pos h, ih]
      simp [h]
    · rw [if_neg h, ih]
      simp [h, List.append_assoc]

theorem lldRecord_foldl_filter (rec : List (String × PyVal)) :
    ∀ acc : List (String × String),
      rec.foldl
        (fun acc kv =>
          if truthy kv.2 then dictUpdate acc (macro_name kv.1) (pyStr kv.2) else acc) acc
      = (rec.filter (fun kv => truthy kv.2)).foldl
          (fun acc kv =>
            if truthy kv.2 then dictUpdate acc (macro_name kv.1) (pyStr kv.2) else acc) acc := by
  induction rec with
  | nil => intro acc; simp
  | cons kv t ih =>
    intro acc
    by_cases h : truthy kv.2 <;> simp [List.filter_cons, h, ih]

/-! ## Concrete handlers and items used in witnesses and counterexamples -/

/-- A handler that returns the integer 7. -/
def handlerSeven : Handler := fun _ => .ok (.int 7)

/-- A handler that returns the integer 1. -/
def handlerOne : Handler := fun _ => .ok (.int 1)

/-- A handler that returns the integer 2. -/
def handlerTwo : Handler := fun _ => .ok (.int 2)

/-- A handler that raises a `KeyError`, like a handler doing a failed
dict lookup. -/
def keyRaiser : Handler := fun _ => .error (.keyError "missing")

/-- A handler that raises a provider-defined exception. -/
def excRaiser : Handler := fun _ => .error (.exc "boom")

/-- An item whose handler raises `KeyError`. -/
def itemKE : AgentItem :=
  { key := "kk", flags := 0, test_param := TP.pnone, fn := keyRaiser }

/-- An item whose handler raises a provider-defined exception. -/
def itemExc : AgentItem :=
  { key := "ke", flags := 0, test_param := TP.pnone, fn := excRaiser }

/-- The registry after registering `itemExc`. -/
def regExc : Registry := (register_item initialRegistry itemExc).1

/-- First of two items sharing the key `dup`. -/
def itemOne : AgentItem :=
  { key := "dup", flags := 0, test_param := TP.pnone, fn := handlerOne }

/-- Second of two items sharing the key `dup`. -/
def itemTwo : AgentItem :=
  { key := "dup", flags := 0, test_param := TP.pnone, fn := handlerTwo }

/-- The spec's `discovery` example input (§8):
`[{"name": "eth0", "index": 0}, {"name": "", "index": 1}]`. -/
def lldExample : List (List (String × PyVal)) :=
  [[("name", .str "eth0"), ("index", .int 0)], [("name", .str ""), ("index", .int 1)]]

/-! ## Claim theorems -/

/-- C1: for every non-empty key and every handler, `AgentItem`
construction succeeds, and `register_item` with the resulting item
followed by `route` on a request with the matching key returns exactly
the value the handler returns for that request. -/
theorem item_register_route_ok (reg : Registry) (k : String) (fl : Int) (f : Handler)
    (tp : TP) (req : AgentRequest) (v : PyVal)
    (hk : k ≠ "") (hreq : req.key = k) (hv : f req = .ok v) :
    ∃ it rest, AgentItem.mk? (some k) fl (some f) tp = .ok (it, rest) ∧
      route (register_item reg it).1 req = .ok v := by
  refine ⟨{ key := k, flags := fl, test_param := (processTP tp).1, fn := f },
    (processTP tp).2, ?_, ?_⟩
  · simp [AgentItem.mk?, hk]
  · simp [route, register_item, hreq, dictFind_dictUpdate_self, hv]

theorem item_register_route_ok_witness :
    (("k1" : String) ≠ "") ∧
    ({ key := "k1", params := [] } : AgentRequest).key = "k1" ∧
    handlerSeven { key := "k1", params := [] } = .ok (.int 7) ∧
    (∃ it rest, AgentItem.mk? (some "k1") 0 (some handlerSeven) TP.pnone = .ok (it, rest) ∧
      route (register_item initialRegistry it).1 { key := "k1", params := [] } = .ok (.int 7)) :=
  ⟨by decide, rfl, rfl,
    item_register_route_ok initialRegistry "k1" 0 handlerSeven TP.pnone
      { key := "k1", params := [] } (.int 7) (by decide) rfl rfl⟩

/-- C2: `route` on a request whose key has no registered route fails
with the unknown-item `ValueError` whose message carries the requested
key; it never returns a value. -/
theorem route_unregistered_fails (reg : Registry) (req : AgentRequest)
    (h : dictFind reg.routes req.key = Option.none) :
    route reg req =
      .error (.valueError ("no function registered for agent item " ++ req.key)) := by
  simp [route, h]

theorem route_unregistered_fails_witness :
    dictFind initialRegistry.routes ("ghost" : String) = Option.none ∧
    route initialRegistry { key := "ghost", params := [] } =
      .error (.valueError "no function registered for agent item ghost") :=
  ⟨rfl, route_unregistered_fails initialRegistry { key := "ghost", params := [] } rfl⟩

/-- C3 counterexample: a registered handler that itself raises a
`KeyError` does not have its error propagated unmodified: `route`
converts it into the unknown-item `ValueError`. -/
theorem route_handler_keyerror_cex :
    route (register_item initialRegistry itemKE).1 { key := "kk", params := [] } =
      .error (.valueError "no function registered for agent item kk") ∧
    route (register_item initialRegistry itemKE).1 { key := "kk", params := [] } ≠
      .error (.keyError "missing") := by
  constructor
  · rfl
  · intro h
    rw [show route (register_item initialRegistry itemKE).1 { key := "kk", params := [] } =
        .error (.valueError "no function registered for agent item kk") from rfl] at h
    injection h with h2
    cases h2

/-- C3 amended: `route` on a registered key invokes the handler and
returns its result unchanged — a returned value is passed through, and
any raised error other than a `KeyError` propagates unmodified; a
`KeyError` raised by the handler is caught and replaced by the
unknown-item `ValueError`. -/
theorem route_dispatch_propagation (reg : Registry) (req : AgentRequest) (f : Handler)
    (hf : dictFind reg.routes req.key = some f) :
    (∀ v, f req = .ok v → route reg req = .ok v) ∧
    (∀ e, f req = .error e → e.isKeyError = false → route reg req = .error e) ∧
    (∀ m, f req = .error (.keyError m) →
      route reg req =
        .error (.valueError ("no function registered for agent item " ++ req.key))) := by
  refine ⟨?_, ?_, ?_⟩
  · intro v hv
    simp [route, hf, hv]
  · intro e he hne
    cases e <;> simp_all [route, hf, PyErr.isKeyError]
  · intro m hm
    simp [route, hf, hm]

theorem route_dispatch_propagation_witness :
    dictFind regExc.routes ("ke" : String) = some excRaiser ∧
    excRaiser { key := "ke", params := [] } = .error (.exc "boom") ∧
    PyErr.isKeyError (.exc "boom") = false ∧
    route regExc { key := "ke", params := [] } = .error (.exc "boom") :=
  ⟨rfl, rfl, rfl,
    (route_dispatch_propagation regExc { key := "ke", params := [] } excRaiser rfl).2.1
      (.exc "boom") rfl rfl⟩

/-- C4: after any sequence of `register_item` calls all items appear in
`zbx_module_item_list` in registration order (duplicate keys included),
while the route for each key is the handler of the last item registered
under that key; in particular registering two items with the same key
keeps both in the item list and dispatches to the second item's
handler. -/
theorem register_last_write_wins :
    (∀ reg l, zbx_module_item_list (registerAll reg l) = reg.items ++ l) ∧
    (∀ reg l k, dictFind (registerAll reg l).routes k =
      match lastRouteFor l k with
      | some f => some f
      | Option.none => dictFind reg.routes k) ∧
    (∀ reg i1 i2 req v, i1.key = req.key → i2.key = req.key → i2.fn req = .ok v →
      zbx_module_item_list (registerAll reg [i1, i2]) = reg.items ++ [i1, i2] ∧
      route (registerAll reg [i1, i2]) req = .ok v) := by
  refine ⟨fun reg l => registerAll_items reg l, fun reg l k => registerAll_routes reg l k, ?_⟩
  intro reg i1 i2 req v h1 h2 hv
  refine ⟨registerAll_items reg [i1, i2], ?_⟩
  have hfind : dictFind (registerAll reg [i1, i2]).routes req.key = some i2.fn := by
    rw [registerAll_routes]
    simp [lastRouteFor, h2]
  simp [route, hfind, hv]

theorem register_last_write_wins_witness :
    itemOne.key = ({ key := "dup", params := [] } : AgentRequest).key ∧
    itemTwo.key = ({ key := "dup", params := [] } : AgentRequest).key ∧
    itemTwo.fn { key := "dup", params := [] } = .ok (.int 2) ∧
    (zbx_module_item_list (registerAll initialRegistry [itemOne, itemTwo]) =
        initialRegistry.items ++ [itemOne, itemTwo] ∧
      route (registerAll initialRegistry [itemOne, itemTwo]) { key := "dup", params := [] } =
        .ok (.int 2)) :=
  ⟨rfl, rfl, rfl,
    register_last_write_wins.2.2 initialRegistry itemOne itemTwo
      { key := "dup", params := [] } (.int 2) rfl rfl rfl⟩

/-- C5: `macro_name` computes exactly the spec's five-step algorithm:
uppercase, replace whitespace/underscore/hyphen runs by one underscore,
delete characters other than ASCII letters and underscore, collapse
underscore runs, wrap in the `{#...}` envelope; and on the spec's
examples it yields `{#CPU_USAGE}`, `{#FREE_SPACE}` and `{#}`. -/
theorem macro_name_correct :
    (∀ s, macro_name s = macroNameSpec s) ∧
    macro_name "cpu usage" = "\x7b#CPU_USAGE\x7d" ∧
    macro_name "free-space!!" = "\x7b#FREE_SPACE\x7d" ∧
    macro_name "123" = "\x7b#\x7d" := by
  refine ⟨?_, by decide, by decide, by decide⟩
  intro s
  simp [macro_name, macroNameSpec, subRuns_eq_specReplaceRuns]

/-- C6 counterexample: on the spec's example input the second record
`{"name": "", "index": 1}` is not dropped — its value `1` is truthy, so
the record survives as `{"{#INDEX}": "1"}` and the result is not
`{"data": [{"{#NAME}": "eth0"}]}`. -/
theorem discovery_example_cex :
    discoveryRecords lldExample =
      [[("\x7b#NAME\x7d", "eth0")], [("\x7b#INDEX\x7d", "1")]] ∧
    discoveryRecords lldExample ≠ [[("\x7b#NAME\x7d", "eth0")]] := by
  constructor
  · decide
  · decide

/-- C6 amended: `discovery` keeps, per record, exactly the pairs with
truthy values (falsy pairs never affect the output), maps
`macro_name(key)` to the stringified value, and drops a record exactly
when no pair survives; on the spec's example the first record keeps
only `name` and the second record keeps `index = 1`, giving
`{"data": [{"{#NAME}": "eth0"}, {"{#INDEX}": "1"}]}`. -/
theorem discovery_truthy_filter :
    (∀ data, discoveryRecords data = (data.map lldRecord).filter (fun l => !l.isEmpty)) ∧
    (∀ rec, lldRecord rec = lldRecord (rec.filter (fun kv => truthy kv.2))) ∧
    discovery lldExample =
      "\x7b\"data\": [\x7b\"\x7b#NAME\x7d\": \"eth0\"\x7d, \x7b\"\x7b#INDEX\x7d\": \"1\"\x7d]\x7d" := by
  refine ⟨?_, ?_, by decide⟩
  · intro data
    exact discoveryRecords_foldl data []
  · intro rec
    exact lldRecord_foldl_filter rec []

/-- C7: `AgentItem` construction fails with the configuration
`ValueError` exactly when the key is absent or empty or the handler is
absent; with a non-empty key and a present handler it succeeds and
stores the processed `test_param`. -/
theorem agent_item_construction_guard (fl : Int) (fn : Option Handler) (tp : TP) :
    AgentItem.mk? Option.none fl fn tp = .error (.valueError "key not given in agent item") ∧
    AgentItem.mk? (some "") fl fn tp = .error (.valueError "key not given in agent item") ∧
    AgentItem.mk? (some "k") fl Option.none tp =
      .error (.valueError "fn not given in agent item") ∧
    (∀ k f, k ≠ "" →
      AgentItem.mk? (some k) fl (some f) tp =
        .ok ({ key := k, flags := fl, test_param := (processTP tp).1, fn := f },
          (processTP tp).2)) := by
  refine ⟨rfl, rfl, rfl, ?_⟩
  intro k f hk
  simp [AgentItem.mk?, hk]

theorem agent_item_construction_guard_witness :
    (("k" : String) ≠ "") ∧
    AgentItem.mk? (some "k") 0 (some handlerOne) TP.pnone =
      .ok ({ key := "k", flags := 0, test_param := TP.pnone, fn := handlerOne }, TP.pnone) :=
  ⟨by decide,
    (agent_item_construction_guard 0 Option.none TP.pnone).2.2.2 "k" handlerOne (by decide)⟩

/-- C8 counterexample: a `test_param` supplied as the tuple `(1, 2)` is
not stored as the comma-join `1,2`; the item assignment in the
constructor raises `TypeError` on a tuple, so the stored value is
`str((1, 2)) = "(1, 2)"`. -/
theorem test_param_tuple_cex :
    AgentItem.mk? (some "k") 0 (some handlerOne) (TP.ptuple [.int 1, .int 2]) =
      .ok ({ key := "k", flags := 0, test_param := TP.pstr "(1, 2)", fn := handlerOne },
        TP.ptuple [.int 1, .int 2]) ∧
    (AgentItem.mk? (some "k") 0 (some handlerOne) (TP.ptuple [.int 1, .int 2])).map
        (fun p => p.1.test_param) ≠ .ok (TP.pstr "1,2") := by
  constructor
  · rfl
  · intro h
    rw [show (AgentItem.mk? (some "k") 0 (some handlerOne)
          (TP.ptuple [.int 1, .int 2])).map (fun p => p.1.test_param) =
        .ok (TP.pstr "(1, 2)") from rfl] at h
    injection h with h2
    injection h2 with h3
    exact absurd h3 (by decide)

/-- C8 amended: a truthy `test_param` supplied as a list is stored as
its elements stringified and joined with `,`; a truthy tuple is stored
as `str()` of the whole tuple (its Python repr); a truthy string is
stored as itself; a truthy non-iterable scalar is stored as its direct
stringification. -/
theorem test_param_normalization (k : String) (fl : Int) (f : Handler) (hk : k ≠ "") :
    (∀ l, (AgentItem.mk? (some k) fl (some f) (TP.plist l)).map (fun p => p.1.test_param) =
      .ok (if l.isEmpty then TP.plist l
        else TP.pstr (String.intercalate "," (l.map pyStr)))) ∧
    (∀ l, l ≠ [] →
      (AgentItem.mk? (some k) fl (some f) (TP.ptuple l)).map (fun p => p.1.test_param) =
        .ok (TP.pstr (pyStrTuple l))) ∧
    (∀ s, s ≠ "" →
      (AgentItem.mk? (some k) fl (some f) (TP.pstr s)).map (fun p => p.1.test_param) =
        .ok (TP.pstr s)) ∧
    (∀ v, truthy v = true →
      (AgentItem.mk? (some k) fl (some f) (TP.pscalar v)).map (fun p => p.1.test_param) =
        .ok (TP.pstr (pyStr v))) := by
  refine ⟨?_, ?_, ?_, ?_⟩
  · intro l
    by_cases hl : l.isEmpty
    · simp [AgentItem.mk?, hk, processTP, truthyTP, hl, Except.map]
    · simp [AgentItem.mk?, hk, processTP, truthyTP, hl, Except.map]
  · intro l hl
    have hne : l.isEmpty = false := by
      cases l with
      | nil => exact absurd rfl hl
      | cons => rfl
    simp [AgentItem.mk?, hk, processTP, truthyTP, hne, Except.map]
  · intro s hs
    have hne : s.isEmpty = false := by
      cases h2 : s.isEmpty with
      | false => rfl
      | true => exact absurd ((String.isEmpty_iff s).1 h2) hs
    simp [AgentItem.mk?, hk, processTP, truthyTP, hne, Except.map]
  · intro v hv
    simp [AgentItem.mk?, hk, processTP, truthyTP, hv, Except.map]

theorem test_param_normalization_witness :
    (("k" : String) ≠ "") ∧
    (AgentItem.mk? (some "k") 0 (some handlerOne)
        (TP.plist [PyVal.int 5, PyVal.str "a"])).map (fun p => p.1.test_param) =
      .ok (TP.pstr "5,a") :=
  ⟨by decide,
    (test_param_normalization "k" 0 handlerOne (by decide)).1 [PyVal.int 5, PyVal.str "a"]⟩

/-- C9 counterexample: before initialization (the import-time registry
with no routes), `route` does not fail with the spec's `NotReadyError`;
it fails with the unknown-item `ValueError`. -/
theorem route_before_init_cex :
    route initialRegistry { key := "anykey", params := [] } =
      .error (.valueError "no function registered for agent item anykey") ∧
    route initialRegistry { key := "anykey", params := [] } ≠ .error PyErr.notReady := by
  constructor
  · rfl
  · intro h
    rw [show route initialRegistry { key := "anykey", params := [] } =
        .error (.valueError "no function registered for agent item anykey") from rfl] at h
    injection h with h2
    cases h2

/-- C9 amended: in the registry state before initialization no routes
exist, so `route` fails on every request — but with the unknown-item
`ValueError` carrying the requested key, not a `NotReadyError`; the
code defines no readiness state and `register_item` works in any
state. -/
theorem route_before_init_unknown_item (req : AgentRequest) :
    route initialRegistry req =
      .error (.valueError ("no function registered for agent item " ++ req.key)) := by
  simp [route, initialRegistry, dictFind]

/-- C10: when `test_param` is supplied as a (mutable) list, the
constructor mutates the caller's list in place: after a successful
construction the caller's argument holds the stringified forms of the
original elements. -/
theorem test_param_list_mutation (k : String) (fl : Int) (f : Handler) (l : List PyVal)
    (hk : k ≠ "") :
    (AgentItem.mk? (some k) fl (some f) (TP.plist l)).map Prod.snd =
      .ok (TP.plist (l.map fun v => PyVal.str (pyStr v))) := by
  cases l with
  | nil => simp [AgentItem.mk?, hk, processTP, truthyTP, Except.map]
  | cons x t => simp [AgentItem.mk?, hk, processTP, truthyTP, Except.map]

theorem test_param_list_mutation_witness :
    (("mut" : String) ≠ "") ∧
    (AgentItem.mk? (some "mut") 0 (some handlerOne)
        (TP.plist [PyVal.int 5, PyVal.bool true])).map Prod.snd =
      .ok (TP.plist [PyVal.str "5", PyVal.str "True"]) :=
  ⟨by decide,
    test_param_list_mutation "mut" 0 handlerOne [PyVal.int 5, PyVal.bool true] (by decide)⟩

end ZbxModule
